import Mathlib

/-!
Shallow embedding of the pollination model from
`src/natcap/invest/pollination.py`.

The array kernels of the model (`_PYTOp`, `_PYWOp`, `_PollinatorSupplyOp`,
`_PollinatorSupplyIndexOp`, `_MultByScalar`, `_OnFarmPollinatorAbundance`,
`_SumRasters`, `_CalculateHabitatNestingIndex`) are all elementwise numpy
operations: the value of an output pixel depends only on the values of the
input pixels at the same location.  We therefore embed each kernel as a pure
function on per-pixel values.  Pixel values are modelled as rationals (`ℚ`);
the no-data sentinel `_INDEX_NODATA = -1.0` is the rational `-1`.

Scenario parsing (`_parse_scenario_variables`) is embedded as a function on a
record of the table headers and farm fields, returning `Except` to model the
`raise ValueError` control flow; the regular-expression matching used by the
source (`re.match` / `re.findall` with patterns of the shape
`prefix([^_]+)suffix`) is embedded by explicit string functions.
-/

namespace Pollination

/-- `_INDEX_NODATA = -1.0` from pollination.py line 28. -/
def INDEX_NODATA : ℚ := -1

/-! ## Array kernels (per-pixel semantics)

Each numpy kernel writes `result[:] = _INDEX_NODATA` (or `0`) and then
overwrites the pixels selected by boolean masks; per pixel this is an
`if`-cascade following the mask logic of the source. -/

/-- `_PYTOp.__call__(mp_array, FP_array)`:
`valid_mask = mp_array != _INDEX_NODATA`; `result[:] = _INDEX_NODATA`;
`result[valid_mask] = mp + FP`; `min_mask = valid_mask & (result > 1.0)`;
`result[min_mask] = 1.0`.  Only `mp` is tested against the sentinel. -/
def pytOp (mp FP : ℚ) : ℚ :=
  if mp = INDEX_NODATA then INDEX_NODATA
  else if mp + FP > 1 then 1 else mp + FP

/-- `_PYWOp.__call__(mp_array, PYT_array)`:
`valid_mask = mp_array != _INDEX_NODATA`; `result[valid_mask] = PYT - mp`;
`max_mask = valid_mask & (result < 0.0)`; `result[max_mask] = 0.0`. -/
def pywOp (mp PYT : ℚ) : ℚ :=
  if mp = INDEX_NODATA then INDEX_NODATA
  else if PYT - mp < 0 then 0 else PYT - mp

/-- `_PollinatorSupplyOp.__call__(foraged_flowers_array,
floral_resources_array, convolve_ps_array)` (the pollinator-abundance
kernel): `valid_mask = foraged != _INDEX_NODATA`; `result[:] = _INDEX_NODATA`;
`zero_mask = floral == 0`; `result[zero_mask & valid_mask] = 0.0`;
`result[valid_mask & ~zero_mask] = foraged / floral * convolve_ps`. -/
def pollinatorSupplyOp (foraged floral convolvePS : ℚ) : ℚ :=
  if foraged = INDEX_NODATA then INDEX_NODATA
  else if floral = 0 then 0
  else foraged / floral * convolvePS

/-- `_PollinatorSupplyIndexOp.__call__(floral_resources_array,
habitat_nesting_suitability_array)`: `result[:] = _INDEX_NODATA`;
`valid_mask = floral_resources_array != _INDEX_NODATA`;
`result[valid_mask] = species_abundance * floral * habitat_nesting`.
Only the first array argument is tested against the sentinel.  (At the call
site in `execute`, pollination.py lines 473-480, the habitat-nesting raster
is passed as the first band and the floral-resources raster as the second.) -/
def pollinatorSupplyIndexOp (speciesAbundance fr hn : ℚ) : ℚ :=
  if fr = INDEX_NODATA then INDEX_NODATA
  else speciesAbundance * fr * hn

/-- `_MultByScalar.__call__(array)`: `result[:] = _INDEX_NODATA`;
`valid_mask = array != _INDEX_NODATA`;
`result[valid_mask] = array * scalar`. -/
def multByScalar (scalar v : ℚ) : ℚ :=
  if v = INDEX_NODATA then INDEX_NODATA
  else v * scalar

/-- `_OnFarmPollinatorAbundance.__call__(h_array, pat_array)`:
`valid_mask = (h != _INDEX_NODATA) & (pat != _INDEX_NODATA)`;
`result[valid_mask] = (pat*(1-h)) / (h*(1-2*pat)+pat)`. -/
def onFarmPollinatorAbundanceOp (h pat : ℚ) : ℚ :=
  if h ≠ INDEX_NODATA ∧ pat ≠ INDEX_NODATA then
    pat * (1 - h) / (h * (1 - 2 * pat) + pat)
  else INDEX_NODATA

/-- One step of the `_SumRasters.__call__` loop, per pixel.  State is
`(result, valid_mask)`: `local_valid_mask = array != _INDEX_NODATA`;
`result[local_valid_mask] += array[...]`; `valid_mask |= local_valid_mask`. -/
def sumRastersStep (acc : ℚ × Bool) (v : ℚ) : ℚ × Bool :=
  if v ≠ INDEX_NODATA then (acc.1 + v, true) else acc

/-- `_SumRasters.__call__(*array_list)`: start from `result[:] = 0` and an
all-false `valid_mask`, loop over the input arrays accumulating valid values,
then `result[~valid_mask] = _INDEX_NODATA`.  The source indexes
`array_list[0]`, so the list is non-empty in every call. -/
def sumRastersPixel (vals : List ℚ) : ℚ :=
  let s := vals.foldl sumRastersStep (0, false)
  if s.2 then s.1 else INDEX_NODATA

/-- `_CalculateHabitatNestingIndex.__call__`'s inner `max_op`: the substrate
index arrays arrive in sorted-substrate order paired (via
`species_substrate_suitability_index_array`, built over the same
`sorted(substrate_path_map)`) with the per-species suitability scalars; the
output pixel is `numpy.max` over `substrate_value * suitability_scalar`, and
afterwards `result[substrate_index_arrays[0] == _INDEX_NODATA] =
_INDEX_NODATA`: no-data is taken from the first (reference) substrate array
only.  We model the non-empty argument list as a head `p0` plus tail `rest`,
each element a pair `(substrate index value N(x,n), scalar ns(s,n))`. -/
def habitatNestingPixel (p0 : ℚ × ℚ) (rest : List (ℚ × ℚ)) : ℚ :=
  if p0.1 = INDEX_NODATA then INDEX_NODATA
  else (rest.map (fun q => q.1 * q.2)).foldl max (p0.1 * p0.2)

/-! ## Python string ordering

`_parse_scenario_variables` produces `sorted(...)` lists of table-derived
names (pollination.py lines 972-978).  Python sorts strings by lexicographic
comparison of code points; we embed that order explicitly so that it is
kernel-computable. -/

/-- Lexicographic comparison of char lists by Unicode code point, as Python
compares strings. -/
def lexLe : List Char → List Char → Bool
  | [], _ => true
  | _ :: _, [] => false
  | a :: as, b :: bs =>
    if a = b then lexLe as bs
    else decide (a < b)

/-- Python string `<=`. -/
def strLe (a b : String) : Bool := lexLe a.data b.data

/-- `strLe` as a relation. -/
def strLeP (a b : String) : Prop := strLe a b = true

instance : DecidableRel strLeP := fun _ _ => instDecidableEqBool _ _

theorem lexLe_total : ∀ as bs : List Char, lexLe as bs = true ∨ lexLe bs as = true := by
  intro as
  induction as with
  | nil => intro bs; left; rfl
  | cons a as ih =>
    intro bs
    cases bs with
    | nil => right; rfl
    | cons b bs =>
      by_cases hab : a = b
      · subst hab
        rcases ih bs with h | h
        · left; simpa [lexLe] using h
        · right; simpa [lexLe] using h
      · rcases lt_trichotomy a b with h | h | h
        · left; simp [lexLe, hab, h]
        · exact absurd h hab
        · right; simp [lexLe, Ne.symm hab, h]

theorem lexLe_trans : ∀ as bs cs : List Char,
    lexLe as bs = true → lexLe bs cs = true → lexLe as cs = true := by
  intro as
  induction as with
  | nil => intro bs cs _ _; rfl
  | cons a as ih =>
    intro bs cs h1 h2
    cases bs with
    | nil => simp [lexLe] at h1
    | cons b bs =>
      cases cs with
      | nil => simp [lexLe] at h2
      | cons c cs =>
        by_cases hab : a = b <;> by_cases hbc : b = c
        · subst hab; subst hbc
          simp only [lexLe, if_pos rfl] at h1 h2 ⊢
          exact ih _ _ h1 h2
        · subst hab
          simp only [lexLe, if_pos rfl] at h1
          simpa [lexLe, hbc] using h2
        · subst hbc
          simpa [lexLe, hab] using h1
        · simp only [lexLe, if_neg hab] at h1
          simp only [lexLe, if_neg hbc] at h2
          have h1' : a < b := of_decide_eq_true h1
          have h2' : b < c := of_decide_eq_true h2
          have hac : a < c := lt_trans h1' h2'
          simp [lexLe, ne_of_lt hac, hac]

theorem lexLe_antisymm : ∀ as bs : List Char,
    lexLe as bs = true → lexLe bs as = true → as = bs := by
  intro as
  induction as with
  | nil =>
    intro bs _ h2
    cases bs with
    | nil => rfl
    | cons b bs => simp [lexLe] at h2
  | cons a as ih =>
    intro bs h1 h2
    cases bs with
    | nil => simp [lexLe] at h1
    | cons b bs =>
      by_cases hab : a = b
      · subst hab
        simp only [lexLe, if_pos rfl] at h1 h2
        rw [ih bs h1 h2]
      · simp only [lexLe, if_neg hab] at h1
        simp only [lexLe, if_neg (Ne.symm hab)] at h2
        have h1' : a < b := of_decide_eq_true h1
        have h2' : b < a := of_decide_eq_true h2
        exact absurd h2' (lt_asymm h1')

instance : IsTotal String strLeP :=
  ⟨fun a b => lexLe_total a.data b.data⟩

instance : IsTrans String strLeP :=
  ⟨fun a b c => lexLe_trans a.data b.data c.data⟩

theorem string_data_inj {a b : String} (h : a.data = b.data) : a = b :=
  congrArg String.mk h

instance : IsAntisymm String strLeP :=
  ⟨fun a b h1 h2 => string_data_inj (lexLe_antisymm a.data b.data h1 h2)⟩

/-- Python `sorted(d)` for a dict `d`: the sorted list of the distinct keys.
Key sets are modelled as the list of key occurrences in insertion order;
`dedup` keeps the distinct keys and `insertionSort` orders them. -/
def pySortedKeys (l : List String) : List String :=
  List.insertionSort strLeP l.dedup

theorem pySortedKeys_sorted (l : List String) :
    List.Sorted strLeP (pySortedKeys l) :=
  List.sorted_insertionSort _ _

theorem pySortedKeys_eq_of_mem_iff {l₁ l₂ : List String}
    (h : ∀ s, s ∈ l₁ ↔ s ∈ l₂) : pySortedKeys l₁ = pySortedKeys l₂ := by
  have hperm : List.Perm l₁.dedup l₂.dedup := by
    rw [List.perm_ext_iff_of_nodup l₁.nodup_dedup l₂.nodup_dedup]
    intro a
    simpa [List.mem_dedup] using h a
  exact List.eq_of_perm_of_sorted
    ((List.perm_insertionSort _ _).trans (hperm.trans (List.perm_insertionSort _ _).symm))
    (List.sorted_insertionSort _ _) (List.sorted_insertionSort _ _)

/-! ## Regular-expression matching used by `_parse_scenario_variables`

Every pattern in pollination.py has the shape `prefix([^_]+)suffix` (or is a
plain literal).  For such a pattern, `re.match` succeeds on a string iff the
string starts with `prefix`, is followed by a non-empty run of
non-underscore characters, and that run is followed by `suffix` (greedy
`[^_]+` cannot backtrack into the run because every character it would give
back is a non-underscore while `suffix` starts with `_` or is empty).
`re.findall(pattern, joined)` is non-empty iff such a match starts at some
position of `joined`. -/

/-- Match `pre ++ ([^_]+) ++ post` at the start of `cs`, returning the
capture group. -/
def matchCapture (pre post : List Char) (cs : List Char) : Option (List Char) :=
  if pre.isPrefixOf cs then
    let rest := cs.drop pre.length
    let run := rest.takeWhile (fun c => c ≠ '_')
    if run ≠ [] ∧ post.isPrefixOf (rest.drop run.length) = true then some run
    else none
  else none

/-- `re.match(pre ++ "([^_]+)" ++ post, h)` returning `match.group(1)`. -/
def reMatchCapture (pre post : String) (h : String) : Option String :=
  (matchCapture pre.data post.data h.data).map String.mk

/-- `" ".join(headers)`, as used by the `re.findall` existence checks. -/
def joinedHeaders (headers : List String) : List Char :=
  (String.intercalate " " headers).data

/-- `len(re.findall(pre ++ "([^_]+)" ++ post, " ".join(headers))) != 0`. -/
def patternOccursIn (pre post : String) (headers : List String) : Bool :=
  (joinedHeaders headers).tails.any
    (fun t => (matchCapture pre.data post.data t).isSome)

/-- `len(re.findall(lit, " ".join(headers))) != 0` for a literal pattern. -/
def literalOccursIn (lit : String) (headers : List String) : Bool :=
  (joinedHeaders headers).tails.any (fun t => lit.data.isPrefixOf t)

/-- `_EXPECTED_GUILD_HEADERS` (pollination.py lines 43-45), each paired with
its `re.findall` existence check. -/
def expectedGuildHeaders : List (String × (List String → Bool)) :=
  [("species", literalOccursIn "species"),
   ("nesting_suitability_([^_]+)_index", patternOccursIn "nesting_suitability_" "_index"),
   ("foraging_activity_([^_]+)_index", patternOccursIn "foraging_activity_" "_index"),
   ("alpha", literalOccursIn "alpha"),
   ("relative_abundance", literalOccursIn "relative_abundance")]

/-- `_EXPECTED_BIOPHYSICAL_HEADERS` (pollination.py lines 33-34). -/
def expectedBioHeaders : List (String × (List String → Bool)) :=
  [("lucode", literalOccursIn "lucode"),
   ("nesting_([^_]+)_availability_index", patternOccursIn "nesting_" "_availability_index"),
   ("floral_resources_([^_]+)_index", patternOccursIn "floral_resources_" "_index")]

/-- `_EXPECTED_FARM_HEADERS` (pollination.py lines 123-126). -/
def expectedFarmHeaders : List (String × (List String → Bool)) :=
  [("season", literalOccursIn "season"),
   ("crop_type", literalOccursIn "crop_type"),
   ("half_sat", literalOccursIn "half_sat"),
   ("p_managed", literalOccursIn "p_managed"),
   ("fr_([^_]+)", patternOccursIn "fr_" ""),
   ("n_([^_]+)", patternOccursIn "n_" ""),
   ("p_dep", literalOccursIn "p_dep")]

/-- The first expected header pattern with no match in `headers` (the
source raises `ValueError` naming that pattern). -/
def firstMissingHeader (expected : List (String × (List String → Bool)))
    (headers : List String) : Option String :=
  (expected.find? (fun p => ! p.2 headers)).map Prod.fst

/-! ## Scenario input and `_parse_scenario_variables` -/

/-- The farm vector as seen by `_parse_scenario_variables`: its attribute
field names, the `season` field values of its features, and whether its
layer is a polygon layer. -/
structure FarmInput where
  headers : List String
  featureSeasons : List String
  isPolygon : Bool
deriving DecidableEq

/-- The inputs `_parse_scenario_variables` reads: the guild-table headers,
the guild-table `species` column (its dict keys), the biophysical-table
headers, and the optional farm vector. -/
structure ScenarioInput where
  guildHeaders : List String
  guildSpecies : List String
  bioHeaders : List String
  farm : Option FarmInput
deriving DecidableEq

/-- Seasons discovered in guild headers via
`re.match(_FORAGING_ACTIVITY_RE_PATTERN, header)` (lines 891-895). -/
def guildSeasons (headers : List String) : List String :=
  headers.filterMap (reMatchCapture "foraging_activity_" "_index")

/-- Substrates discovered in guild headers via
`re.match(_NESTING_SUITABILITY_PATTERN, header)` (lines 896-899). -/
def guildSubstrates (headers : List String) : List String :=
  headers.filterMap (reMatchCapture "nesting_suitability_" "_index")

/-- Seasons discovered in biophysical headers via
`re.match(_FLORAL_RESOURCES_AVAILABLE_PATTERN, header)` (lines 933-937). -/
def bioSeasons (headers : List String) : List String :=
  headers.filterMap (reMatchCapture "floral_resources_" "_index")

/-- Substrates discovered in biophysical headers via
`re.match(_NESTING_SUBSTRATE_PATTERN, header)` (lines 938-941). -/
def bioSubstrates (headers : List String) : List String :=
  headers.filterMap (reMatchCapture "nesting_" "_availability_index")

/-- Seasons discovered in farm fields via
`re.match(_FARM_FLORAL_RESOURCES_PATTERN, header)` (lines 923-927). -/
def farmSeasons (headers : List String) : List String :=
  headers.filterMap (reMatchCapture "fr_" "")

/-- Substrates discovered in farm fields via
`re.match(_FARM_NESTING_SUBSTRATE_RE_PATTERN, header)` (lines 928-931). -/
def farmSubstrates (headers : List String) : List String :=
  headers.filterMap (reMatchCapture "n_" "")

/-- Farm seasons, empty when no farm vector is given. -/
def farmSeasonsOpt (inp : ScenarioInput) : List String :=
  match inp.farm with
  | some f => farmSeasons f.headers
  | none => []

/-- Farm substrates, empty when no farm vector is given. -/
def farmSubstratesOpt (inp : ScenarioInput) : List String :=
  match inp.farm with
  | some f => farmSubstrates f.headers
  | none => []

/-- The keys of `season_to_header` (a dict filled from the guild headers,
then the farm fields, then the biophysical headers), as a duplicate-free
list in insertion order. -/
def discoveredSeasons (inp : ScenarioInput) : List String :=
  (guildSeasons inp.guildHeaders ++ farmSeasonsOpt inp ++
    bioSeasons inp.bioHeaders).dedup

/-- The keys of `substrate_to_header`. -/
def discoveredSubstrates (inp : ScenarioInput) : List String :=
  (guildSubstrates inp.guildHeaders ++ farmSubstratesOpt inp ++
    bioSubstrates inp.bioHeaders).dedup

/-- The keys of `season_to_header[n]`: which of the three tables defined
season `n` (in dict insertion order guild, farm, biophysical). -/
def seasonTablesFor (inp : ScenarioInput) (n : String) : List String :=
  (if n ∈ guildSeasons inp.guildHeaders then ["guild"] else []) ++
  (if n ∈ farmSeasonsOpt inp then ["farm"] else []) ++
  (if n ∈ bioSeasons inp.bioHeaders then ["biophysical"] else [])

/-- The keys of `substrate_to_header[n]`. -/
def substrateTablesFor (inp : ScenarioInput) (n : String) : List String :=
  (if n ∈ guildSubstrates inp.guildHeaders then ["guild"] else []) ++
  (if n ∈ farmSubstratesOpt inp then ["farm"] else []) ++
  (if n ∈ bioSubstrates inp.bioHeaders then ["biophysical"] else [])

/-- `3` when a farm vector is present, else `2`: the number of tables every
discovered season/substrate must appear in (pollination.py lines 943-958). -/
def requiredTableCount (inp : ScenarioInput) : ℕ :=
  if inp.farm.isSome then 3 else 2

/-- The exceptions `_parse_scenario_variables` can raise. -/
inductive ParseError where
  | guildPatternMissing (pattern : String)
  | bioPatternMissing (pattern : String)
  | farmNotPolygon
  | farmPatternMissing (pattern : String)
  | missingTableEntries (name : String) (foundTables : List String)
  | unknownFarmSeasons (seasons : List String)
deriving DecidableEq

/-- First discovered season whose table coverage differs from the required
count. -/
def seasonOffender (inp : ScenarioInput) : Option String :=
  (discoveredSeasons inp).find?
    (fun n => decide ((seasonTablesFor inp n).length ≠ requiredTableCount inp))

/-- First discovered substrate whose table coverage differs from the
required count. -/
def substrateOffender (inp : ScenarioInput) : Option String :=
  (discoveredSubstrates inp).find?
    (fun n => decide ((substrateTablesFor inp n).length ≠ requiredTableCount inp))

/-- The cross-table validation loop (lines 943-958): iterate the seasons and
then the substrates; raise on the first name not covered by every required
table, reporting the name and the tables that did define it. -/
def crossTableError (inp : ScenarioInput) : Option ParseError :=
  match seasonOffender inp with
  | some n => some (.missingTableEntries n (seasonTablesFor inp n))
  | none =>
    (substrateOffender inp).map
      (fun n => .missingTableEntries n (substrateTablesFor inp n))

/-- Farm-vector checks of lines 901-921: the layer must be a polygon layer
and every expected farm header must match some field. -/
def farmError (inp : ScenarioInput) : Option ParseError :=
  match inp.farm with
  | none => none
  | some f =>
    if f.isPolygon = false then some .farmNotPolygon
    else
      match firstMissingHeader expectedFarmHeaders f.headers with
      | some p => some (.farmPatternMissing p)
      | none => none

/-- `farm_season_set.difference(season_to_header)` (lines 960-970), as a
duplicate-free list. -/
def unknownFarmSeasonsOf (inp : ScenarioInput) : List String :=
  match inp.farm with
  | none => []
  | some f =>
    (f.featureSeasons.filter (fun s => decide (s ∉ discoveredSeasons inp))).dedup

/-- The lists of the result dictionary (pollination.py lines 972-978). -/
structure ScenarioVars where
  seasonList : List String
  substrateList : List String
  speciesList : List String
deriving DecidableEq

/-- `result['season_list'] = sorted(season_to_header)` and the analogous
substrate and species lists. -/
def scenarioVarsOf (inp : ScenarioInput) : ScenarioVars :=
  { seasonList := pySortedKeys
      (guildSeasons inp.guildHeaders ++ farmSeasonsOpt inp ++ bioSeasons inp.bioHeaders)
    substrateList := pySortedKeys
      (guildSubstrates inp.guildHeaders ++ farmSubstratesOpt inp ++ bioSubstrates inp.bioHeaders)
    speciesList := pySortedKeys inp.guildSpecies }

/-- `_parse_scenario_variables(args)`, with the `raise` control flow made
explicit in the order the source performs the checks: expected guild
headers (lines 858-868), expected biophysical headers (870-883), farm
geometry and headers (901-921), cross-table season/substrate coverage
(943-958), farm feature seasons (960-970), then the result lists
(972-978). -/
def parseScenario (inp : ScenarioInput) : Except ParseError ScenarioVars :=
  match firstMissingHeader expectedGuildHeaders inp.guildHeaders with
  | some p => .error (.guildPatternMissing p)
  | none =>
    match firstMissingHeader expectedBioHeaders inp.bioHeaders with
    | some p => .error (.bioPatternMissing p)
    | none =>
      match farmError inp with
      | some e => .error e
      | none =>
        match crossTableError inp with
        | some e => .error e
        | none =>
          if unknownFarmSeasonsOf inp ≠ [] then
            .error (.unknownFarmSeasons (unknownFarmSeasonsOf inp))
          else .ok (scenarioVarsOf inp)

/-! ## `execute`: parsing happens before any task registration

In `execute` (pollination.py lines 226-233), `_parse_scenario_variables` is
called at line 229, before the `taskgraph.TaskGraph` is even constructed at
line 233 and before the first `add_task` call at line 237/255; an exception
from parsing therefore propagates with zero tasks registered.  We model the
run as: parse, then register the task list derived from the scenario
variables (the initial registrations of `execute`: one reclassify task per
substrate, one habitat-nesting task per species, one floral-abundance task
per season, one foraged-flowers task per species-season pair). -/

/-- Task names registered by `execute` once parsing has succeeded. -/
def scheduledTasks (sv : ScenarioVars) : List String :=
  sv.substrateList.map (fun n => "nesting_substrate_index_" ++ n) ++
  sv.speciesList.map (fun s => "habitat_nesting_index_" ++ s) ++
  sv.seasonList.map (fun j => "relative_floral_abundance_index_" ++ j) ++
  (sv.speciesList.flatMap (fun s =>
    sv.seasonList.map (fun j => "foraged_flowers_index_" ++ s ++ "_" ++ j)))

/-- `execute`, up to task registration. -/
def executeModel (inp : ScenarioInput) : Except ParseError (List String) :=
  match parseScenario inp with
  | .error e => .error e
  | .ok sv => .ok (scheduledTasks sv)

/-- Number of tasks `execute` registers with the task graph. -/
def scheduledTaskCount (inp : ScenarioInput) : ℕ :=
  match executeModel inp with
  | .error _ => 0
  | .ok l => l.length

/-! ## Normalization of abundance and foraging-activity weights

Pollination.py lines 985-1005.  `guild_table[species][field]` values are
modelled as functions from species (resp. season) names to rationals. -/

/-- `total_relative_abundance = numpy.sum([guild_table[species]
['relative_abundance'] for species in species_list])` (lines 986-988). -/
def totalRelativeAbundance (speciesList : List String) (ra : String → ℚ) : ℚ :=
  (speciesList.map ra).sum

/-- `result['species_abundance'][species] = guild_table[species]
['relative_abundance'] / total_relative_abundance` (lines 989-993). -/
def speciesAbundance (speciesList : List String) (ra : String → ℚ)
    (species : String) : ℚ :=
  ra species / totalRelativeAbundance speciesList ra

/-- `total_activity = numpy.sum([guild_table[species][...] for season in
season_list])` for one species (lines 999-1001); `fa` maps a season to that
species' raw foraging-activity entry. -/
def totalForagingActivity (seasonList : List String) (fa : String → ℚ) : ℚ :=
  (seasonList.map fa).sum

/-- `result['species_foraging_activity'][(species, season)] = raw /
total_activity` (lines 1002-1005). -/
def speciesForagingActivity (seasonList : List String) (fa : String → ℚ)
    (season : String) : ℚ :=
  fa season / totalForagingActivity seasonList fa

/-! ## Convolution-kernel artifact path (`execute`, lines 432-443)

`kernel_path = os.path.join(intermediate_output_dir,
_KERNEL_FILE_PATTERN % (alpha, file_suffix))` with `_KERNEL_FILE_PATTERN =
'kernel_%f%s.tif'` and `alpha = scenario_variables['alpha_value'][species] /
float(landcover_raster_info['mean_pixel_size'])`. -/

/-- Python `'%f' % x`: fixed-point with six fractional digits.  The rounding
mode of the last digit is irrelevant to the theorems below; we use round
half up on the rational value. -/
def formatPercentF (q : ℚ) : String :=
  let scaled : ℤ := round (q * 1000000)
  let sign := if scaled < 0 then "-" else ""
  let n := scaled.natAbs
  let fracRaw := toString (n % 1000000)
  sign ++ toString (n / 1000000) ++ "." ++
    String.mk (List.replicate (6 - fracRaw.length) '0') ++ fracRaw

/-- The kernel artifact path built by `execute` for one species. -/
def kernelPath (intermediateDir fileSuffix : String) (alphaValue : String → ℚ)
    (meanPixelSize : ℚ) (species : String) : String :=
  intermediateDir ++ "/" ++ "kernel_" ++
    formatPercentF (alphaValue species / meanPixelSize) ++ fileSuffix ++ ".tif"

/-! ## `validate` (pollination.py lines 1325-1402)

Args values are strings or Python `None`; the filesystem and GDAL are
external collaborators, modelled as total boolean oracles `pathExists`,
`isRaster`, `isVector` on argument values. -/

/-- A value of the `args` dict: a string or `None`. -/
inductive ArgValue where
  | pyNone
  | pyStr (s : String)
deriving DecidableEq

/-- The five keys required by `validate` (lines 1347-1352), in source
order. -/
def requiredValidateKeys : List String :=
  ["workspace_dir", "landcover_raster_path", "guild_table_path",
   "landcover_biophysical_table_path", "farm_vector_path"]

/-- The keys checked for existence on disk (lines 1369-1373). -/
def existenceCheckKeys : List String :=
  ["landcover_raster_path", "guild_table_path",
   "landcover_biophysical_table_path", "farm_vector_path"]

/-- `args[k]`, or `none` when `k not in args`. -/
def lookupArg (args : List (String × ArgValue)) (k : String) : Option ArgValue :=
  (args.find? (fun p => decide (p.1 = k))).map Prod.snd

/-- `limit_to is None or limit_to == key`. -/
def limitMatches (limitTo : Option String) (k : String) : Bool :=
  limitTo.isNone || decide (limitTo = some k)

/-- `missing_key_list` (lines 1347-1355). -/
def missingKeyList (args : List (String × ArgValue)) (limitTo : Option String) :
    List String :=
  requiredValidateKeys.filter
    (fun k => limitMatches limitTo k && (lookupArg args k).isNone)

/-- `no_value_list` (lines 1356-1357): present keys whose value is `''` or
`None`. -/
def noValueList (args : List (String × ArgValue)) (limitTo : Option String) :
    List String :=
  requiredValidateKeys.filter (fun k =>
    limitMatches limitTo k &&
      match lookupArg args k with
      | some v => decide (v = .pyStr "" ∨ v = .pyNone)
      | none => false)

/-- Exceptions escaping the path-probing loops of `validate`.  In Python 2,
`os.path.exists` is `genericpath.exists`, which catches only `os.error`
around `os.stat(path)`; called on `None` it raises `TypeError`, which
propagates out of `validate`. -/
inductive PathProbeError where
  /-- `os.path.exists(None)`: `TypeError` from `os.stat(None)` (the field
  records which key's `None` value was passed; the Python message does not
  name it). -/
  | typeErrorNonePath (key : String)
  /-- `args[key]` on an absent key: dict `KeyError`.  Unreachable when
  `limit_to` is `None`, because the missing-key check at line 1361 raised
  first; present so the loop functions are total. -/
  | dictKeyError (key : String)
deriving DecidableEq

/-- Everything `validate` can raise: the explicit `KeyError` of lines
1359-1363 listing the missing keys, or an exception escaping a path
probe. -/
inductive ValidateRaise where
  | keyError (missing : List String)
  | probe (e : PathProbeError)
deriving DecidableEq

/-- The `'not found on disk'` loop (lines 1369-1377), over the remaining
keys, with the raise paths explicit: `args[key]` raises on an absent key,
and `os.path.exists(args[key])` raises `TypeError` when the value is
`None`.  On a string value the filesystem answer comes from the external
oracle `pathExists`. -/
def diskErrorsLoop (pathExists : String → Bool) (args : List (String × ArgValue))
    (limitTo : Option String) :
    List String → Except PathProbeError (List (List String × String))
  | [] => .ok []
  | k :: ks =>
    if limitMatches limitTo k then
      match lookupArg args k with
      | none => .error (.dictKeyError k)
      | some .pyNone => .error (.typeErrorNonePath k)
      | some (.pyStr s) =>
        match diskErrorsLoop pathExists args limitTo ks with
        | .error e => .error e
        | .ok rest =>
          .ok ((if ! pathExists s then [([k], "not found on disk")] else []) ++ rest)
    else diskErrorsLoop pathExists args limitTo ks

/-- The raster/vector type-check loop (lines 1380-1400), with the same
explicit raise on `os.path.exists(None)` at line 1385; this loop guards
with `key in args`, so absent keys are skipped, and `gdal.Open` /
`ogr.Open` return `None` (an appended error, not a raise) on invalid
files, modelled by the `isRaster` / `isVector` oracles. -/
def typeCheckLoop (pathExists isRaster isVector : String → Bool)
    (args : List (String × ArgValue)) (limitTo : Option String) :
    List (String × Bool) → Except PathProbeError (List (List String × String))
  | [] => .ok []
  | kt :: ks =>
    if limitMatches limitTo kt.1 && (lookupArg args kt.1).isSome then
      match lookupArg args kt.1 with
      | none => .error (.dictKeyError kt.1)
      | some .pyNone => .error (.typeErrorNonePath kt.1)
      | some (.pyStr s) =>
        match typeCheckLoop pathExists isRaster isVector args limitTo ks with
        | .error e => .error e
        | .ok rest =>
          .ok ((if ! pathExists s then [([kt.1], "not found on disk")]
                else if kt.2 then
                  (if ! isRaster s then [([kt.1], "not a raster")] else [])
                else
                  (if ! isVector s then [([kt.1], "not a vector")] else [])) ++ rest)
    else typeCheckLoop pathExists isRaster isVector args limitTo ks

/-- The key/type pairs of the loop at lines 1380-1383 (`true` = raster). -/
def typeCheckKeys : List (String × Bool) :=
  [("landcover_raster_path", true), ("farm_vector_path", false)]

/-- `validate(args, limit_to)`: `Except.error` collects every raise path
(the `KeyError` of lines 1359-1363 and the `TypeError` / dict accesses of
the two path loops); `Except.ok` is the returned `validation_error_list`.
In the source, the `no_value_list` tuple is appended (lines 1365-1367)
before the loops run, but a later raise discards the list, so the
observable result is the same. -/
def validateModel (pathExists isRaster isVector : String → Bool)
    (args : List (String × ArgValue)) (limitTo : Option String) :
    Except ValidateRaise (List (List String × String)) :=
  if missingKeyList args limitTo ≠ [] then
    .error (.keyError (missingKeyList args limitTo))
  else
    match diskErrorsLoop pathExists args limitTo existenceCheckKeys with
    | .error e => .error (.probe e)
    | .ok diskList =>
      match typeCheckLoop pathExists isRaster isVector args limitTo typeCheckKeys with
      | .error e => .error (.probe e)
      | .ok typeList =>
        .ok ((if noValueList args limitTo ≠ [] then
                [(noValueList args limitTo, "parameter has no value")]
              else []) ++ diskList ++ typeList)

/-- `Except` discriminator (no kernel-opaque dependencies). -/
def exceptIsOk {ε α : Type} : Except ε α → Bool
  | .ok _ => true
  | .error _ => false

/-- An args dict with all five required keys present but
`farm_vector_path = None`: `validate` reaches `os.path.exists(None)`. -/
def argsWithNoneFarm : List (String × ArgValue) :=
  [("workspace_dir", .pyStr "/ws"),
   ("landcover_raster_path", .pyStr "/lc.tif"),
   ("guild_table_path", .pyStr "/guild.csv"),
   ("landcover_biophysical_table_path", .pyStr "/bio.csv"),
   ("farm_vector_path", .pyNone)]

/-- An args dict with all five required keys present and string values. -/
def argsAllPresent : List (String × ArgValue) :=
  [("workspace_dir", .pyStr "/ws"),
   ("landcover_raster_path", .pyStr "/lc.tif"),
   ("guild_table_path", .pyStr "/guild.csv"),
   ("landcover_biophysical_table_path", .pyStr "/bio.csv"),
   ("farm_vector_path", .pyStr "/farm.shp")]

/-! ## Concrete scenario inputs used in counterexamples and witnesses -/

/-- A guild table with a substrate column but no foraging-activity column at
all, against a biophysical table that defines the season `summer`:
`summer` is discovered in exactly one table. -/
def guildMissingForagingInput : ScenarioInput :=
  { guildHeaders := ["species", "nesting_suitability_cavity_index", "alpha",
      "relative_abundance"]
    guildSpecies := ["apis"]
    bioHeaders := ["lucode", "nesting_cavity_availability_index",
      "floral_resources_summer_index"]
    farm := none }

/-- A guild table defining seasons `spring` and `summer` against a
biophysical table defining only `spring`; all expected header patterns
match, so parsing reaches the cross-table check. -/
def crossTableMissingInput : ScenarioInput :=
  { guildHeaders := ["species", "nesting_suitability_cavity_index",
      "foraging_activity_spring_index", "foraging_activity_summer_index",
      "alpha", "relative_abundance"]
    guildSpecies := ["apis"]
    bioHeaders := ["lucode", "nesting_cavity_availability_index",
      "floral_resources_spring_index"]
    farm := none }

/-- A well-formed scenario input. -/
def runA : ScenarioInput :=
  { guildHeaders := ["species", "nesting_suitability_cavity_index",
      "foraging_activity_spring_index", "alpha", "relative_abundance"]
    guildSpecies := ["apis", "bombus"]
    bioHeaders := ["lucode", "nesting_cavity_availability_index",
      "floral_resources_spring_index"]
    farm := none }

/-- `runA` with its table columns and rows in a different order. -/
def runB : ScenarioInput :=
  { guildHeaders := ["alpha", "foraging_activity_spring_index", "species",
      "relative_abundance", "nesting_suitability_cavity_index"]
    guildSpecies := ["bombus", "apis"]
    bioHeaders := ["floral_resources_spring_index", "lucode",
      "nesting_cavity_availability_index"]
    farm := none }

/-! ## Helper lemmas -/

/-- `List.foldl max` over rationals: the result bounds the seed and every
element, and is attained by the seed or an element. -/
theorem foldl_max_bounds (l : List ℚ) (a : ℚ) :
    (a ≤ l.foldl max a ∧ ∀ x ∈ l, x ≤ l.foldl max a) ∧
    (l.foldl max a = a ∨ l.foldl max a ∈ l) := by
  induction l generalizing a with
  | nil => simp
  | cons y ys ih =>
    have h := ih (max a y)
    constructor
    · constructor
      · exact le_trans (le_max_left a y) h.1.1
      · intro x hx
        rcases List.mem_cons.mp hx with rfl | hx
        · exact le_trans (le_max_right a x) h.1.1
        · exact h.1.2 x hx
    · rcases h.2 with h2 | h2
      · rcases max_choice a y with hm | hm
        · left; rw [List.foldl_cons, h2, hm]
        · right; rw [List.foldl_cons, h2, hm]; exact List.mem_cons_self y ys
      · right; exact List.mem_cons_of_mem y h2

/-- The `_SumRasters` accumulation loop computes the sum of the valid values
and tracks whether any value was valid. -/
theorem sumRasters_foldl (vals : List ℚ) (a : ℚ) (b : Bool) :
    vals.foldl sumRastersStep (a, b) =
      (a + (vals.filter (fun v => v ≠ INDEX_NODATA)).sum,
       b || vals.any (fun v => decide (v ≠ INDEX_NODATA))) := by
  induction vals generalizing a b with
  | nil => simp
  | cons v vs ih =>
    by_cases hv : v = INDEX_NODATA
    · simp [sumRastersStep, hv, ih]
    · simp [sumRastersStep, hv, ih, add_assoc]

/-- Summing `fun x => f x / c` over a list divides the sum by `c`. -/
theorem list_sum_map_div (l : List String) (f : String → ℚ) (c : ℚ) :
    (l.map (fun x => f x / c)).sum = (l.map f).sum / c := by
  induction l with
  | nil => simp
  | cons x xs ih => simp [ih, add_div]

/-- A successful parse returns exactly the sorted lists of
`scenarioVarsOf`. -/
theorem parseScenario_ok_eq {inp : ScenarioInput} {sv : ScenarioVars}
    (h : parseScenario inp = .ok sv) : sv = scenarioVarsOf inp := by
  unfold parseScenario at h
  cases hg : firstMissingHeader expectedGuildHeaders inp.guildHeaders with
  | some p => rw [hg] at h; exact Except.noConfusion h
  | none =>
  rw [hg] at h
  cases hb : firstMissingHeader expectedBioHeaders inp.bioHeaders with
  | some p => rw [hb] at h; exact Except.noConfusion h
  | none =>
  rw [hb] at h
  cases hf : farmError inp with
  | some e => rw [hf] at h; exact Except.noConfusion h
  | none =>
  rw [hf] at h
  cases hc : crossTableError inp with
  | some e => rw [hc] at h; exact Except.noConfusion h
  | none =>
  rw [hc] at h
  by_cases hu : unknownFarmSeasonsOf inp ≠ []
  · rw [if_pos hu] at h; exact Except.noConfusion h
  · rw [if_neg hu] at h
    exact (Except.ok.inj h).symm

/-! ## Claim theorems -/

/-- C1 counterexample: the total-yield kernel `_PYTOp` does not propagate
no-data from its `FP_array` input.  With `mp = 1/2` (valid) and
`FP = _INDEX_NODATA = -1`, the output pixel is `-1/2`, not the no-data
sentinel, although a required input holds the sentinel. -/
theorem pyt_nodata_input_not_propagated :
    pytOp (1/2) INDEX_NODATA = -(1/2) ∧ pytOp (1/2) INDEX_NODATA ≠ INDEX_NODATA := by
  constructor <;> norm_num [pytOp, INDEX_NODATA]

/-- C1 amended: each kernel propagates no-data from the input(s) it masks
on — `mp_array` for `_PYTOp` and `_PYWOp`, the first array argument for
`_PollinatorSupplyOp` (foraged flowers), `_PollinatorSupplyIndexOp` and
`_CalculateHabitatNestingIndex`, and both inputs for `_MultByScalar` and
`_OnFarmPollinatorAbundance`; no-data in the remaining inputs is not
detected. -/
theorem nodata_propagated_from_masked_inputs (FP PYT sa hn floral conv h pat : ℚ)
    (rest : List (ℚ × ℚ)) :
    pytOp INDEX_NODATA FP = INDEX_NODATA ∧
    pywOp INDEX_NODATA PYT = INDEX_NODATA ∧
    pollinatorSupplyOp INDEX_NODATA floral conv = INDEX_NODATA ∧
    pollinatorSupplyIndexOp sa INDEX_NODATA hn = INDEX_NODATA ∧
    multByScalar sa INDEX_NODATA = INDEX_NODATA ∧
    onFarmPollinatorAbundanceOp INDEX_NODATA pat = INDEX_NODATA ∧
    onFarmPollinatorAbundanceOp h INDEX_NODATA = INDEX_NODATA ∧
    habitatNestingPixel (INDEX_NODATA, sa) rest = INDEX_NODATA := by
  refine ⟨?_, ?_, ?_, ?_, ?_, ?_, ?_, ?_⟩ <;>
    simp [pytOp, pywOp, pollinatorSupplyOp, pollinatorSupplyIndexOp,
      multByScalar, onFarmPollinatorAbundanceOp, habitatNestingPixel]

/-- C2: at a pixel whose foraged-flowers value is valid, the
pollinator-abundance kernel returns exactly `0` when the floral-resources
value is `0`, and `foraged / FR * convolve_PS` otherwise; the division is
guarded by the zero test. -/
theorem pollinator_abundance_division_guard (foraged floral conv : ℚ)
    (hvalid : foraged ≠ INDEX_NODATA) :
    (floral = 0 → pollinatorSupplyOp foraged floral conv = 0) ∧
    (floral ≠ 0 →
      pollinatorSupplyOp foraged floral conv = foraged / floral * conv) := by
  constructor
  · intro h0; simp [pollinatorSupplyOp, hvalid, h0]
  · intro h0; simp [pollinatorSupplyOp, hvalid, h0]

/-- C2 witness: concrete zero- and nonzero-divisor pixels. -/
theorem pollinator_abundance_division_guard_witness :
    pollinatorSupplyOp (1/2) 0 3 = 0 ∧ pollinatorSupplyOp (1/2) 2 3 = 3/4 := by
  constructor
  · exact (pollinator_abundance_division_guard (1/2) 0 3
      (by norm_num [INDEX_NODATA])).1 rfl
  · have h := (pollinator_abundance_division_guard (1/2) 2 3
      (by norm_num [INDEX_NODATA])).2 (by norm_num)
    rw [h]; norm_num

/-- C3: at a pixel with a valid managed-pollinator value `mp`, the
total-yield kernel returns `min(mp + FP, 1)` and the wild-yield kernel
returns `max(0, PYT - mp)`; concretely `mp = 0.9, FP = 0.3` yields total
`1.0` and `PYT = 1.0, mp = 0.9` yields wild `0.1`. -/
theorem farm_yield_clamped (mp FP PYT : ℚ) (hvalid : mp ≠ INDEX_NODATA) :
    pytOp mp FP = min (mp + FP) 1 ∧
    pywOp mp PYT = max 0 (PYT - mp) ∧
    pytOp (9/10) (3/10) = 1 ∧
    pywOp (9/10) 1 = 1/10 := by
  refine ⟨?_, ?_, by norm_num [pytOp, INDEX_NODATA], by norm_num [pywOp, INDEX_NODATA]⟩
  · rw [pytOp, if_neg hvalid]
    by_cases hgt : mp + FP > 1
    · rw [if_pos hgt, min_eq_right (le_of_lt hgt)]
    · rw [if_neg hgt, min_eq_left (not_lt.mp hgt)]
  · rw [pywOp, if_neg hvalid]
    by_cases hlt : PYT - mp < 0
    · rw [if_pos hlt, max_eq_left (le_of_lt hlt)]
    · rw [if_neg hlt, max_eq_right (not_lt.mp hlt)]

/-- C3 witness: the clamp theorem applied at the concrete pixel of the
claim. -/
theorem farm_yield_clamped_witness :
    pytOp (9/10) (3/10) = 1 ∧ pywOp (9/10) 1 = 1/10 := by
  have h := farm_yield_clamped (9/10) (3/10) 1 (by norm_num [INDEX_NODATA])
  exact ⟨h.2.2.1, h.2.2.2⟩

/-- C4: where the reference (first, in sorted-substrate order) substrate
layer is valid, the habitat-nesting kernel returns the maximum over
substrates of `N(x,n) * ns(s,n)`; where the reference layer is no-data,
the output is no-data; for substrate values `[0.2, 0.8]` and suitability
scalars `[0.5, 1.0]` the output is `0.8`. -/
theorem habitat_nesting_max_formula (p0 : ℚ × ℚ) (rest : List (ℚ × ℚ))
    (hvalid : p0.1 ≠ INDEX_NODATA) :
    (∀ q ∈ p0 :: rest, q.1 * q.2 ≤ habitatNestingPixel p0 rest) ∧
    (∃ q ∈ p0 :: rest, habitatNestingPixel p0 rest = q.1 * q.2) ∧
    habitatNestingPixel (1/5, 1/2) [(4/5, 1)] = 4/5 := by
  have hdef : habitatNestingPixel p0 rest =
      (rest.map (fun q => q.1 * q.2)).foldl max (p0.1 * p0.2) := by
    rw [habitatNestingPixel, if_neg hvalid]
  have hb := foldl_max_bounds (rest.map (fun q => q.1 * q.2)) (p0.1 * p0.2)
  refine ⟨?_, ?_, by norm_num [habitatNestingPixel, INDEX_NODATA]⟩
  · intro q hq
    rcases List.mem_cons.mp hq with rfl | hq
    · rw [hdef]; exact hb.1.1
    · rw [hdef]
      exact hb.1.2 _ (List.mem_map_of_mem (fun q => q.1 * q.2) hq)
  · rcases hb.2 with h2 | h2
    · exact ⟨p0, List.mem_cons_self p0 rest, hdef.trans h2⟩
    · rcases List.mem_map.mp h2 with ⟨q, hq, hqe⟩
      exact ⟨q, List.mem_cons_of_mem p0 hq, hdef.trans hqe.symm⟩

/-- C4 witness: the formula theorem applied to the claim's concrete pixel,
where the maximum `0.8` is attained by the second substrate. -/
theorem habitat_nesting_max_formula_witness :
    habitatNestingPixel (1/5, 1/2) [(4/5, 1)] = 4/5 ∧
    (4/5 : ℚ) * 1 ≤ habitatNestingPixel (1/5, 1/2) [(4/5, 1)] := by
  have h := habitat_nesting_max_formula (1/5, 1/2) [(4/5, 1)]
    (by norm_num [INDEX_NODATA])
  exact ⟨h.2.2, h.1 (4/5, 1) (by simp)⟩

/-- C5 counterexample: the raster-sum kernel's output can equal the no-data
sentinel at a pixel where not all inputs are no-data: two valid inputs
`-1/2` sum to `-1 = _INDEX_NODATA`.  The claimed "no-data iff all inputs
no-data" equivalence fails at the level of output values. -/
theorem sum_rasters_sentinel_collision :
    sumRastersPixel [-(1/2), -(1/2)] = INDEX_NODATA ∧
    -(1:ℚ)/2 ≠ INDEX_NODATA := by
  constructor
  · norm_num [sumRastersPixel, sumRastersStep, INDEX_NODATA]
  · norm_num [INDEX_NODATA]

/-- C5 amended: at a pixel with at least one valid input the kernel returns
the sum of the valid inputs; where all inputs are no-data it returns the
sentinel; and the output value equals the sentinel exactly at all-no-data
pixels provided every valid input is nonnegative (in general a sum of
valid inputs may coincide with the sentinel value `-1`). -/
theorem sum_rasters_nodata_tolerant (vals : List ℚ) (_hne : vals ≠ []) :
    ((∃ v ∈ vals, v ≠ INDEX_NODATA) →
      sumRastersPixel vals = (vals.filter (fun v => v ≠ INDEX_NODATA)).sum) ∧
    ((∀ v ∈ vals, v = INDEX_NODATA) → sumRastersPixel vals = INDEX_NODATA) ∧
    ((∀ v ∈ vals, v = INDEX_NODATA ∨ 0 ≤ v) →
      (sumRastersPixel vals = INDEX_NODATA ↔ ∀ v ∈ vals, v = INDEX_NODATA)) := by
  have hchar : sumRastersPixel vals =
      if vals.any (fun v => decide (v ≠ INDEX_NODATA)) then
        (vals.filter (fun v => v ≠ INDEX_NODATA)).sum
      else INDEX_NODATA := by
    rw [sumRastersPixel, sumRasters_foldl]
    simp only [zero_add, Bool.false_or]
  refine ⟨?_, ?_, ?_⟩
  · intro hsome
    have hany : vals.any (fun v => decide (v ≠ INDEX_NODATA)) = true := by
      rcases hsome with ⟨v, hv, hvne⟩
      exact List.any_eq_true.mpr ⟨v, hv, by simpa using hvne⟩
    rw [hchar, if_pos hany]
  · intro hall
    have hany : vals.any (fun v => decide (v ≠ INDEX_NODATA)) = false := by
      rw [List.any_eq_false]
      intro v hv
      simpa using hall v hv
    rw [hchar, hany]
    exact if_neg (by simp)
  · intro hsigned
    constructor
    · intro hout
      by_contra hnotall
      push_neg at hnotall
      rcases hnotall with ⟨v, hv, hvne⟩
      have hany : vals.any (fun v => decide (v ≠ INDEX_NODATA)) = true :=
        List.any_eq_true.mpr ⟨v, hv, by simpa using hvne⟩
      rw [hchar, if_pos hany] at hout
      have hnonneg : 0 ≤ (vals.filter (fun v => v ≠ INDEX_NODATA)).sum := by
        apply List.sum_nonneg
        intro x hx
        have hx' := List.mem_filter.mp hx
        rcases hsigned x hx'.1 with hxe | hxp
        · exact absurd hxe (by simpa using hx'.2)
        · exact hxp
      rw [hout] at hnonneg
      norm_num [INDEX_NODATA] at hnonneg
    · intro hall
      have hany : vals.any (fun v => decide (v ≠ INDEX_NODATA)) = false := by
        rw [List.any_eq_false]
        intro v hv
        simpa using hall v hv
      rw [hchar, hany]
      exact if_neg (by simp)

/-- C5 witness: the amended sum theorem at a concrete stack with one valid
and one no-data input. -/
theorem sum_rasters_nodata_tolerant_witness :
    sumRastersPixel [(3:ℚ), INDEX_NODATA] =
      ([(3:ℚ), INDEX_NODATA].filter (fun v => v ≠ INDEX_NODATA)).sum := by
  have h := sum_rasters_nodata_tolerant [(3:ℚ), INDEX_NODATA] (by simp)
  exact h.1 ⟨3, by simp, by norm_num [INDEX_NODATA]⟩

/-- C6 counterexample: with a single species of relative abundance `0`,
parsing succeeds (no value is inspected by the header checks) but the
normalized abundances do not sum to `1 ± 1e-6`: the divisor
`total_relative_abundance` is `0`.  (In the implementation the numpy
division produces NaN, which likewise fails the invariant; under the
rational convention `x / 0 = 0` the sum is `0`.) -/
theorem normalization_zero_total_counterexample :
    ¬ |((["a"].map (speciesAbundance ["a"] (fun _ => 0))).sum - 1)| ≤ 1/1000000 := by
  norm_num [speciesAbundance, totalRelativeAbundance]

/-- C6 amended: whenever the raw totals are nonzero (total relative
abundance over all species; per-species total foraging activity over all
seasons), the normalized relative abundances sum to `1` over the species
list and each species' normalized foraging-activity weights sum to `1`
over the season list, in particular within `1e-6`. -/
theorem normalization_sums_to_one (speciesList seasonList : List String)
    (ra : String → ℚ) (fa : String → String → ℚ)
    (hA : totalRelativeAbundance speciesList ra ≠ 0)
    (hF : ∀ s ∈ speciesList, totalForagingActivity seasonList (fa s) ≠ 0) :
    |((speciesList.map (speciesAbundance speciesList ra)).sum - 1)| ≤ 1/1000000 ∧
    ∀ s ∈ speciesList,
      |((seasonList.map (speciesForagingActivity seasonList (fa s))).sum - 1)| ≤
        1/1000000 := by
  constructor
  · have habs : (speciesList.map (speciesAbundance speciesList ra)).sum = 1 := by
      show (speciesList.map
        (fun x => ra x / totalRelativeAbundance speciesList ra)).sum = 1
      rw [list_sum_map_div]
      exact div_self hA
    rw [habs]
    norm_num
  · intro s hs
    have habs :
        (seasonList.map (speciesForagingActivity seasonList (fa s))).sum = 1 := by
      show (seasonList.map
        (fun j => fa s j / totalForagingActivity seasonList (fa s))).sum = 1
      rw [list_sum_map_div]
      exact div_self (hF s hs)
    rw [habs]
    norm_num

/-- C6 witness: the normalization theorem at a concrete two-species guild
table with abundances `1` and `3` and one season of activity `2`. -/
theorem normalization_sums_to_one_witness :
    |((["a", "b"].map (speciesAbundance ["a", "b"] (fun _ => 2))).sum - 1)| ≤
      1/1000000 ∧
    |((["j"].map
        (speciesForagingActivity ["j"] ((fun _ _ => 2) "a"))).sum - 1)| ≤
      1/1000000 := by
  have h := normalization_sums_to_one ["a", "b"] ["j"] (fun _ => 2) (fun _ _ => 2)
    (by norm_num [totalRelativeAbundance])
    (by intro s _; norm_num [totalForagingActivity])
  exact ⟨h.1, h.2 "a" (by simp)⟩

/-- C7 counterexample: for `guildMissingForagingInput` the season `summer`
is discovered only in the biophysical table and is missing from the guild
table that must define it, yet parsing raises the expected-header error
naming the pattern `foraging_activity_([^_]+)_index` and the guild table —
not a configuration error naming `summer`.  (Zero tasks are still
scheduled.) -/
theorem scenario_error_misnames_season :
    "summer" ∈ discoveredSeasons guildMissingForagingInput ∧
    seasonTablesFor guildMissingForagingInput "summer" = ["biophysical"] ∧
    requiredTableCount guildMissingForagingInput = 2 ∧
    parseScenario guildMissingForagingInput =
      .error (.guildPatternMissing "foraging_activity_([^_]+)_index") ∧
    parseScenario guildMissingForagingInput ≠
      .error (.missingTableEntries "summer" ["biophysical"]) ∧
    scheduledTaskCount guildMissingForagingInput = 0 := by
  refine ⟨by decide, by rfl, by rfl, by rfl, ?_, by rfl⟩
  intro h
  have h' : parseScenario guildMissingForagingInput =
      .error (.guildPatternMissing "foraging_activity_([^_]+)_index") := by rfl
  rw [h'] at h
  exact absurd (Except.error.inj h) (by simp)

/-- C7 amended: when every expected header pattern matches in the guild,
biophysical and (if present) farm tables — so that parsing reaches the
cross-table check — and some discovered season or substrate is not covered
by every required table, parsing raises the configuration error naming an
offending season/substrate together with the tables that did define it,
and `execute` registers zero tasks. -/
theorem scenario_cross_table_error (inp : ScenarioInput)
    (hg : firstMissingHeader expectedGuildHeaders inp.guildHeaders = none)
    (hb : firstMissingHeader expectedBioHeaders inp.bioHeaders = none)
    (hf : farmError inp = none)
    (hoff : (∃ n ∈ discoveredSeasons inp,
        (seasonTablesFor inp n).length ≠ requiredTableCount inp) ∨
      (∃ n ∈ discoveredSubstrates inp,
        (substrateTablesFor inp n).length ≠ requiredTableCount inp)) :
    ∃ n tables,
      parseScenario inp = .error (.missingTableEntries n tables) ∧
      ((n ∈ discoveredSeasons inp ∧ tables = seasonTablesFor inp n ∧
          (seasonTablesFor inp n).length ≠ requiredTableCount inp) ∨
       (n ∈ discoveredSubstrates inp ∧ tables = substrateTablesFor inp n ∧
          (substrateTablesFor inp n).length ≠ requiredTableCount inp)) ∧
      executeModel inp = .error (.missingTableEntries n tables) ∧
      scheduledTaskCount inp = 0 := by
  have hcross : ∃ n tables,
      crossTableError inp = some (.missingTableEntries n tables) ∧
      ((n ∈ discoveredSeasons inp ∧ tables = seasonTablesFor inp n ∧
          (seasonTablesFor inp n).length ≠ requiredTableCount inp) ∨
       (n ∈ discoveredSubstrates inp ∧ tables = substrateTablesFor inp n ∧
          (substrateTablesFor inp n).length ≠ requiredTableCount inp)) := by
    cases hs : seasonOffender inp with
    | some n =>
      have hmem := List.mem_of_find?_eq_some hs
      have hprop := List.find?_some hs
      refine ⟨n, seasonTablesFor inp n, ?_, Or.inl ⟨hmem, rfl, ?_⟩⟩
      · unfold crossTableError
        rw [hs]
      · exact of_decide_eq_true hprop
    | none =>
      rcases hoff with ⟨n, hn, hbad⟩ | hsub
      · exfalso
        have := List.find?_eq_none.mp hs n hn
        exact this (by simpa using hbad)
      · rcases hsub with ⟨n, hn, hbad⟩
        cases ht : substrateOffender inp with
        | some m =>
          have hmem := List.mem_of_find?_eq_some ht
          have hprop := List.find?_some ht
          refine ⟨m, substrateTablesFor inp m, ?_, Or.inr ⟨hmem, rfl, ?_⟩⟩
          · unfold crossTableError
            rw [hs, ht]
            rfl
          · exact of_decide_eq_true hprop
        | none =>
          exfalso
          have := List.find?_eq_none.mp ht n hn
          exact this (by simpa using hbad)
  rcases hcross with ⟨n, tables, hc, hwhich⟩
  have hparse : parseScenario inp = .error (.missingTableEntries n tables) := by
    unfold parseScenario
    rw [hg, hb, hf, hc]
  have hexec : executeModel inp = .error (.missingTableEntries n tables) := by
    unfold executeModel
    rw [hparse]
  refine ⟨n, tables, hparse, hwhich, hexec, ?_⟩
  unfold scheduledTaskCount
  rw [hexec]

/-- C7 witness: the amended theorem at `crossTableMissingInput`, whose
season `summer` appears in the guild table but not the biophysical table;
the raised error names `summer` and the guild table, and zero tasks are
scheduled. -/
theorem scenario_cross_table_error_witness :
    parseScenario crossTableMissingInput =
      .error (.missingTableEntries "summer" ["guild"]) ∧
    scheduledTaskCount crossTableMissingInput = 0 := by
  obtain ⟨n, tables, hp, hw, he, hc⟩ :=
    scenario_cross_table_error crossTableMissingInput rfl rfl rfl
      (Or.inl ⟨"summer", by decide, by decide⟩)
  have hn : parseScenario crossTableMissingInput =
      .error (.missingTableEntries "summer" ["guild"]) := by rfl
  exact ⟨hn, hc⟩

/-- C8: the convolution-kernel artifact path depends on the species only
through its alpha value: two species with equal alpha values map to the
same kernel artifact path. -/
theorem kernel_path_keyed_by_alpha (dir suffix : String)
    (alphaValue : String → ℚ) (pixelSize : ℚ) (s1 s2 : String)
    (h : alphaValue s1 = alphaValue s2) :
    kernelPath dir suffix alphaValue pixelSize s1 =
      kernelPath dir suffix alphaValue pixelSize s2 := by
  unfold kernelPath
  rw [h]

/-- C8 witness: two distinct species sharing alpha `3` over pixel size `2`
get the same kernel path. -/
theorem kernel_path_keyed_by_alpha_witness :
    kernelPath "intermediate_outputs" "" (fun _ => 3) 2 "apis" =
      kernelPath "intermediate_outputs" "" (fun _ => 3) 2 "bombus" :=
  kernel_path_keyed_by_alpha "intermediate_outputs" "" (fun _ => 3) 2
    "apis" "bombus" rfl

/-- C9: the season, substrate and species lists of a successful parse are
sorted (in Python's string order), and two runs whose input tables contain
the same sets of species, season and substrate names — in any row and
column order — produce identical lists. -/
theorem scenario_lists_sorted_deterministic
    (inp₁ inp₂ : ScenarioInput) (sv₁ sv₂ : ScenarioVars)
    (h₁ : parseScenario inp₁ = .ok sv₁) (h₂ : parseScenario inp₂ = .ok sv₂)
    (hspecies : ∀ s, s ∈ inp₁.guildSpecies ↔ s ∈ inp₂.guildSpecies)
    (hseasons : ∀ s, s ∈ discoveredSeasons inp₁ ↔ s ∈ discoveredSeasons inp₂)
    (hsubstrates : ∀ s,
      s ∈ discoveredSubstrates inp₁ ↔ s ∈ discoveredSubstrates inp₂) :
    sv₁ = sv₂ ∧
    List.Sorted strLeP sv₁.seasonList ∧
    List.Sorted strLeP sv₁.substrateList ∧
    List.Sorted strLeP sv₁.speciesList := by
  have e₁ := parseScenario_ok_eq h₁
  have e₂ := parseScenario_ok_eq h₂
  subst e₁
  subst e₂
  refine ⟨?_, pySortedKeys_sorted _, pySortedKeys_sorted _, pySortedKeys_sorted _⟩
  have hsea : pySortedKeys (guildSeasons inp₁.guildHeaders ++ farmSeasonsOpt inp₁ ++
      bioSeasons inp₁.bioHeaders) =
      pySortedKeys (guildSeasons inp₂.guildHeaders ++ farmSeasonsOpt inp₂ ++
      bioSeasons inp₂.bioHeaders) :=
    pySortedKeys_eq_of_mem_iff (fun s => by
      simpa [discoveredSeasons, List.mem_dedup] using hseasons s)
  have hsub : pySortedKeys (guildSubstrates inp₁.guildHeaders ++
      farmSubstratesOpt inp₁ ++ bioSubstrates inp₁.bioHeaders) =
      pySortedKeys (guildSubstrates inp₂.guildHeaders ++ farmSubstratesOpt inp₂ ++
      bioSubstrates inp₂.bioHeaders) :=
    pySortedKeys_eq_of_mem_iff (fun s => by
      simpa [discoveredSubstrates, List.mem_dedup] using hsubstrates s)
  have hspe : pySortedKeys inp₁.guildSpecies = pySortedKeys inp₂.guildSpecies :=
    pySortedKeys_eq_of_mem_iff hspecies
  unfold scenarioVarsOf
  rw [hsea, hsub, hspe]

/-- C9 witness: `runA` and its reordered variant `runB` both parse and
yield the same sorted lists. -/
theorem scenario_lists_sorted_deterministic_witness :
    (⟨["spring"], ["cavity"], ["apis", "bombus"]⟩ : ScenarioVars) =
      ⟨["spring"], ["cavity"], ["apis", "bombus"]⟩ ∧
    List.Sorted strLeP (["spring"] : List String) ∧
    List.Sorted strLeP (["cavity"] : List String) ∧
    List.Sorted strLeP (["apis", "bombus"] : List String) :=
  scenario_lists_sorted_deterministic runA runB
    ⟨["spring"], ["cavity"], ["apis", "bombus"]⟩
    ⟨["spring"], ["cavity"], ["apis", "bombus"]⟩
    rfl rfl
    (fun s => by simp [runA, runB, List.mem_cons, or_comm])
    (fun s => Iff.rfl)
    (fun s => Iff.rfl)

/-- When every key in `ks` maps to a string value, the disk-check loop
raises nothing. -/
theorem diskErrorsLoop_isOk (pathExists : String → Bool)
    (args : List (String × ArgValue)) (ks : List String)
    (h : ∀ k ∈ ks, ∃ s, lookupArg args k = some (.pyStr s)) :
    ∃ lst, diskErrorsLoop pathExists args none ks = .ok lst := by
  induction ks with
  | nil => exact ⟨[], rfl⟩
  | cons k ks ih =>
    obtain ⟨rest, hrest⟩ := ih (fun x hx => h x (List.mem_cons_of_mem k hx))
    obtain ⟨s, hs⟩ := h k (List.mem_cons_self k ks)
    refine ⟨(if ! pathExists s then [([k], "not found on disk")] else []) ++ rest, ?_⟩
    rw [diskErrorsLoop, hs, hrest]
    rfl

/-- When every checked key maps to a string value, the type-check loop
raises nothing. -/
theorem typeCheckLoop_isOk (pathExists isRaster isVector : String → Bool)
    (args : List (String × ArgValue)) (ks : List (String × Bool))
    (h : ∀ kt ∈ ks, ∃ s, lookupArg args kt.1 = some (.pyStr s)) :
    ∃ lst, typeCheckLoop pathExists isRaster isVector args none ks = .ok lst := by
  induction ks with
  | nil => exact ⟨[], rfl⟩
  | cons kt ks ih =>
    obtain ⟨rest, hrest⟩ := ih (fun x hx => h x (List.mem_cons_of_mem kt hx))
    obtain ⟨s, hs⟩ := h kt (List.mem_cons_self kt ks)
    refine ⟨(if ! pathExists s then [([kt.1], "not found on disk")]
             else if kt.2 then
               (if ! isRaster s then [([kt.1], "not a raster")] else [])
             else
               (if ! isVector s then [([kt.1], "not a vector")] else [])) ++ rest, ?_⟩
    rw [typeCheckLoop, hs, hrest]
    rfl

/-- C10 counterexample: a missing required key is not the only condition
under which `validate` raises.  With all five required keys present but
`farm_vector_path = None`, the missing-key list is empty (so no `KeyError`),
yet the disk-check loop reaches `os.path.exists(None)` at lines 1374-1375,
which raises `TypeError` in Python 2 — `validate` raises instead of
returning. -/
theorem validate_typeerror_on_none_path :
    missingKeyList argsWithNoneFarm none = [] ∧
    validateModel (fun _ => true) (fun _ => true) (fun _ => true)
      argsWithNoneFarm none =
      .error (.probe (.typeErrorNonePath "farm_vector_path")) := by
  exact ⟨by rfl, by rfl⟩

/-- C10 amended: with `limit_to = None`, a missing required key makes
`validate` raise `KeyError` listing exactly the missing keys (and any
`KeyError` outcome lists exactly the nonempty missing-key list, never the
validation-error-tuple return); but missing keys are not the only raising
condition: when no key is missing, `validate` still raises if one of the
four disk-checked path keys holds `None` (`os.path.exists(None)` raises
`TypeError`); if every disk-checked value is a string, `validate` returns
its validation-error list without raising. -/
theorem validate_raise_conditions (pathExists isRaster isVector : String → Bool)
    (args : List (String × ArgValue)) :
    (missingKeyList args none ≠ [] →
      validateModel pathExists isRaster isVector args none =
        .error (.keyError (missingKeyList args none))) ∧
    (∀ l, validateModel pathExists isRaster isVector args none =
        .error (.keyError l) →
      l = missingKeyList args none ∧ l ≠ []) ∧
    ((∀ k ∈ existenceCheckKeys, ∃ s, lookupArg args k = some (.pyStr s)) →
      missingKeyList args none = [] →
      exceptIsOk (validateModel pathExists isRaster isVector args none) = true) := by
  refine ⟨?_, ?_, ?_⟩
  · intro hmiss
    unfold validateModel
    rw [if_pos hmiss]
  · intro l hl
    unfold validateModel at hl
    by_cases hmiss : missingKeyList args none ≠ []
    · rw [if_pos hmiss] at hl
      have hinj := Except.error.inj hl
      have hli : missingKeyList args none = l := ValidateRaise.keyError.inj hinj
      exact ⟨hli.symm, hli ▸ hmiss⟩
    · rw [if_neg hmiss] at hl
      cases hd : diskErrorsLoop pathExists args none existenceCheckKeys with
      | error e =>
        rw [hd] at hl
        exact absurd (Except.error.inj hl) (by simp)
      | ok diskList =>
        rw [hd] at hl
        cases ht : typeCheckLoop pathExists isRaster isVector args none typeCheckKeys with
        | error e =>
          rw [ht] at hl
          exact absurd (Except.error.inj hl) (by simp)
        | ok typeList =>
          rw [ht] at hl
          exact Except.noConfusion hl
  · intro hstr hmiss
    have htype : ∀ kt ∈ typeCheckKeys, ∃ s, lookupArg args kt.1 = some (.pyStr s) := by
      intro kt hkt
      apply hstr
      have hcase : kt = ("landcover_raster_path", true) ∨
          kt = ("farm_vector_path", false) := by
        simpa [typeCheckKeys] using hkt
      rcases hcase with rfl | rfl
      · simp [existenceCheckKeys]
      · simp [existenceCheckKeys]
    obtain ⟨diskList, hd⟩ :=
      diskErrorsLoop_isOk pathExists args existenceCheckKeys hstr
    obtain ⟨typeList, ht⟩ :=
      typeCheckLoop_isOk pathExists isRaster isVector args typeCheckKeys htype
    unfold validateModel
    rw [if_neg (not_ne_iff.mpr hmiss), hd, ht]
    rfl

/-- C10 witness: the amended theorem applied to an empty args dict (all
five keys missing: the raised `KeyError` lists them) and to a fully
populated string-valued args dict (`validate` returns without raising). -/
theorem validate_raise_conditions_witness :
    validateModel (fun _ => false) (fun _ => false) (fun _ => false) [] none =
      .error (.keyError (missingKeyList [] none)) ∧
    exceptIsOk (validateModel (fun _ => true) (fun _ => true) (fun _ => true)
      argsAllPresent none) = true :=
  ⟨(validate_raise_conditions (fun _ => false) (fun _ => false)
      (fun _ => false) []).1 (by decide),
   (validate_raise_conditions (fun _ => true) (fun _ => true)
      (fun _ => true) argsAllPresent).2.2
     (by
        intro k hk
        simp only [existenceCheckKeys, List.mem_cons, List.not_mem_nil,
          or_false] at hk
        rcases hk with rfl | rfl | rfl | rfl
        · exact ⟨"/lc.tif", rfl⟩
        · exact ⟨"/guild.csv", rfl⟩
        · exact ⟨"/bio.csv", rfl⟩
        · exact ⟨"/farm.shp", rfl⟩)
     (by decide)⟩

end Pollination
